import Mathlib

/-!
Shallow embedding of the `KakaoTalkService` of the CSmart KakaoTalk server
(`src/services/kakaotalk.service.ts`) together with the request-validation
schema of the message route (`src/routes/message.ts`).

Conventions of the embedding:
* TypeScript result objects of shape `{ success: boolean; data?: T; error?: string }`
  become the `SvcResult` structure below; the optional fields become `Option`s.
* `Date` values (`saved_at`, `Date.now()`) are millisecond timestamps, modelled
  as `Nat`; the only operations the service performs on them are comparison and
  rendering into a decimal string, both of which the model performs on the `Nat`.
* The in-memory store `this.chatListStorage` is passed explicitly: every method
  that reads or writes it takes the current store and, when it mutates it,
  returns the new store.
* Playwright driver calls are modelled by an outcome oracle `ok : Ev → Bool`
  saying whether a given UI step succeeds when attempted; an execution is the
  list of steps actually attempted, in order, stopping at the first failure
  (a Playwright failure raises, and the service methods re-throw).
-/

namespace KakaoTalk

/-! ### Data model (`kakaotalk.service.ts`, lines 4–78) -/

/-- Embeds `MessageData.messageType`: `"text" | "image" | "file"`. -/
inductive MessageType where
  | text
  | image
  | file
deriving DecidableEq, Repr

/-- Embeds `interface MessageData` (lines 4–10). Optional fields are `Option`s. -/
structure MessageData where
  recipient : String
  message : String
  messageType : MessageType
  imageUrl : Option String
  fileName : Option String
deriving DecidableEq, Repr

/-- Embeds `interface TalkUser` (lines 20–30). -/
structure TalkUser where
  status_message : String
  active : Bool
  profile_image_url : String
  chat_id : String
  user_type : Nat
  nickname : String
  original_profile_image_url : String
  id : String
  full_profile_image_url : String
deriving DecidableEq, Repr

/-- Embeds `interface ChatItem` (lines 32–61). Numeric fields hold non-negative
integer values (log ids, counters, millisecond timestamps) and are `Nat`. -/
structure ChatItem where
  talk_user : TalkUser
  last_seen_log_id : String
  created_at : Nat
  last_message : String
  is_replied : Bool
  is_read : Bool
  unread_count : Nat
  need_manager_confirm : Bool
  is_deleted : Bool
  updated_at : Nat
  id : String
  assignee_id : Nat
  last_log_id : String
  is_done : Bool
  user_last_seen_log_id : String
  version : Nat
  last_log_send_at : Nat
  is_blocked : Bool
  is_starred : Bool
  is_user_left : Bool
  profile_id : String
  encoded_profile_id : String
  ai_flag : Bool
  name : String
  chat_label_ids : List String
  is_friend : Bool
  add_msg_layer_status : Option String
  check_add_friend_message : Option Bool
deriving DecidableEq, Repr

/-- Embeds `interface ChatListResponse` (lines 63–66). -/
structure ChatListResponse where
  items : List ChatItem
  has_next : Bool
deriving DecidableEq, Repr

/-- Embeds `interface ChatListStorage` (lines 73–78); `saved_at : Date` is a
millisecond timestamp. -/
structure ChatListStorage where
  id : String
  chat_list : List ChatItem
  saved_at : Nat
  total_count : Nat
deriving DecidableEq, Repr

/-- The TypeScript result shape `{ success: boolean; data?: α; error?: string }`. -/
structure SvcResult (α : Type) where
  success : Bool
  data : Option α
  error : Option String
deriving DecidableEq, Repr

/-- The result shape of `deleteChatList`: `{ success: boolean; error?: string }`. -/
structure DeleteResult where
  success : Bool
  error : Option String
deriving DecidableEq, Repr

/-- The result shape of `saveChatList`:
`{ success: boolean; id?: string; error?: string }`. -/
structure SaveResult where
  success : Bool
  id : Option String
  error : Option String
deriving DecidableEq, Repr

/-! ### Snapshot store operations (`kakaotalk.service.ts`, lines 487–685) -/

/-- Error string returned by `getLatestChatList` on an empty store (line 576):
"no saved chat list exists". -/
def emptyStoreError : String := "저장된 채팅 목록이 없습니다."

/-- Error string returned by `deleteChatList` when no entry has the id
(line 669): "cannot find a chat list with that id". -/
def notFoundError : String := "해당 ID의 채팅 목록을 찾을 수 없습니다."

/-- Embeds `saveChatList` (lines 492–526): builds `id = "chatlist_" + Date.now()`,
appends (`push`) a new `ChatListStorage` entry, returns `{success: true, id}`.
`now` is the value of `Date.now()` at the call. -/
def saveChatList (chatList : List ChatItem) (now : Nat)
    (store : List ChatListStorage) : SaveResult × List ChatListStorage :=
  let id := "chatlist_" ++ Nat.repr now
  let savedAt := now
  let chatListData : ChatListStorage :=
    { id := id, chat_list := chatList, saved_at := savedAt,
      total_count := chatList.length }
  (⟨true, some id, none⟩, store ++ [chatListData])

/-- The sort comparator of `getChatList` (line 545):
`(a, b) => new Date(b.saved_at).getTime() - new Date(a.saved_at).getTime()`,
i.e. entries with larger `saved_at` sort first. JavaScript `Array.prototype.sort`
is stable, as is `List.mergeSort`. -/
def bySavedAtDesc (a b : ChatListStorage) : Bool :=
  decide (b.saved_at ≤ a.saved_at)

/-- Embeds `getChatList` (lines 533–565). With an `id`, filters the store by
`storage.id === id`; without, returns a copy of the store sorted by `saved_at`
descending. Both branches return `{success: true, data: result}`. -/
def getChatList (id? : Option String)
    (store : List ChatListStorage) : SvcResult (List ChatListStorage) :=
  match id? with
  | some id => ⟨true, some (store.filter (fun storage => storage.id = id)), none⟩
  | none => ⟨true, some (store.mergeSort bySavedAtDesc), none⟩

/-- Embeds `getLatestChatList` (lines 571–602). Empty store: `{success: false,
error: emptyStoreError}`. Otherwise `reduce` with
`(latest, current) => new Date(current.saved_at) > new Date(latest.saved_at) ? current : latest`,
which folds over the tail starting from the first element. -/
def getLatestChatList (store : List ChatListStorage) : SvcResult ChatListStorage :=
  match store with
  | [] => ⟨false, none, some emptyStoreError⟩
  | h :: t =>
    let latest := t.foldl
      (fun latest current =>
        if latest.saved_at < current.saved_at then current else latest) h
    ⟨true, some latest, none⟩

/-- Embeds `deleteChatList` (lines 661–685): reassigns the store to
`store.filter(storage => storage.id !== id)`; if the length did not shrink,
returns `{success: false, error: notFoundError}`, else `{success: true}`.
The filtered store is kept in either case (the assignment happens first). -/
def deleteChatList (id : String)
    (store : List ChatListStorage) : DeleteResult × List ChatListStorage :=
  let newStore := store.filter (fun storage => storage.id ≠ id)
  if newStore.length = store.length then
    (⟨false, some notFoundError⟩, newStore)
  else
    (⟨true, none⟩, newStore)

/-! ### Dispatch UI-step sequence (`kakaotalk.service.ts`, lines 324–424)

`inputAndSendMessage` drives a fixed sequence of Playwright calls; each call
may fail (raise), and the method's `try`/`catch` re-throws, so execution stops
at the first failing step.  We model each driver call as an event, the driver
by an oracle `ok : Ev → Bool`, and a run as the pair of the overall outcome and
the list of steps attempted in order. -/

/-- The Playwright steps performed by `inputAndSendMessage`, `attachImage`
and `attachFile`, in source order. -/
inductive Ev where
  /-- Step `messageInput.waitFor({state: "visible", ...})` (line 330). -/
  | waitInput
  /-- Step `messageInput.fill(messageData.message)` (line 333). -/
  | fillMessage
  /-- Step `attachButton.click()` (line 379 / line 409). -/
  | attachMenuClick
  /-- Step `imageOption.click()` in `attachImage` (line 383). -/
  | attachImageOption
  /-- Step `fileOption.click()` in `attachFile` (line 413). -/
  | attachFileOption
  /-- Step `sendButton.textContent()` (line 347). -/
  | readSendButtonText
  /-- Step `sendButton.click()` (line 351). -/
  | clickSend
  /-- Step `page.waitForTimeout(1000)` settle wait (line 354). -/
  | settle
deriving DecidableEq, Repr

/-- JavaScript truthiness of an optional string operand
(`undefined` and `""` are falsy). -/
def truthy : Option String → Bool
  | none => false
  | some s => s ≠ ""

/-- The steps `inputAndSendMessage` attempts for `m`, in source order
(lines 324–354): wait for the input, fill it, then — mirroring
`if (messageType === "image" && imageUrl) ... else if (messageType === "file" && fileName) ...`
(lines 336–340) — the attachment sub-sequence, then read the send button's
text, click it, and wait for the send to settle. -/
def dispatchPlan (m : MessageData) : List Ev :=
  [Ev.waitInput, Ev.fillMessage]
    ++ (if m.messageType = MessageType.image ∧ truthy m.imageUrl then
          [Ev.attachMenuClick, Ev.attachImageOption]
        else if m.messageType = MessageType.file ∧ truthy m.fileName then
          [Ev.attachMenuClick, Ev.attachFileOption]
        else [])
    ++ [Ev.readSendButtonText, Ev.clickSend, Ev.settle]

/-- Attempt a list of driver steps in order against the oracle `ok`,
stopping at the first failure.  Returns whether every step succeeded and the
trace of steps actually attempted (the failing step included). -/
def runSteps (ok : Ev → Bool) : List Ev → Bool × List Ev
  | [] => (true, [])
  | e :: es =>
    if ok e then
      let r := runSteps ok es
      (r.1, e :: r.2)
    else
      (false, [e])

/-- Embeds `inputAndSendMessage` (lines 324–364) as a run of its step plan. -/
def inputAndSendMessage (ok : Ev → Bool) (m : MessageData) : Bool × List Ev :=
  runSteps ok (dispatchPlan m)

/-! ### Message route schema (`src/routes/message.ts`, `messageSchema`)

The zod schema of the send endpoint:
```
recipient:   z.string().min(1),
message:     z.string().min(1),
messageType: z.enum(["text", "image", "file"]).default("text"),
imageUrl:    z.string().url().optional(),
fileName:    z.string().optional(),
chatId:      z.string().min(1),
```
zod's URL check (`new URL(s)` succeeding) is external to this development and
is passed in as a predicate `isUrl`. -/

/-- The request body fields as received; `none` is an absent field. -/
structure RawSendRequest where
  recipient : Option String
  message : Option String
  messageType : Option String
  imageUrl : Option String
  fileName : Option String
  chatId : Option String
deriving DecidableEq, Repr

/-- The validated request produced by a successful `messageSchema.parse`. -/
structure ValidatedSendRequest where
  recipient : String
  message : String
  messageType : MessageType
  imageUrl : Option String
  fileName : Option String
  chatId : String
deriving DecidableEq, Repr

/-- Embeds `z.enum(["text","image","file"]).default("text")`: an absent field
defaults to `text`; a present field must be one of the three literals. -/
def parseMessageType : Option String → Option MessageType
  | none => some MessageType.text
  | some ("text") => some MessageType.text
  | some ("image") => some MessageType.image
  | some ("file") => some MessageType.file
  | some _ => none

/-- Embeds `messageSchema.parse`: `none` on any validation failure, otherwise the
validated data.  `imageUrl`, when present, must satisfy the URL check;
`fileName` is an unconstrained optional string. -/
def messageSchemaParse (isUrl : String → Bool)
    (r : RawSendRequest) : Option ValidatedSendRequest :=
  match r.recipient, r.message, r.chatId, parseMessageType r.messageType with
  | some recipient, some message, some chatId, some mt =>
    if (decide (1 ≤ recipient.length) && decide (1 ≤ message.length)
        && decide (1 ≤ chatId.length)
        && (match r.imageUrl with | none => true | some u => isUrl u)) then
      some ⟨recipient, message, mt, r.imageUrl, r.fileName, chatId⟩
    else none
  | _, _, _, _ => none

/-- The route handler's conversion of validated data into the service's
`MessageData` (`message.ts`, the `sendMessage` call):
`imageUrl: validatedData.imageUrl || undefined` and likewise for `fileName`
(`""` collapses to `undefined` by JavaScript truthiness). -/
def jsOrUndefined : Option String → Option String
  | none => none
  | some s => if s = "" then none else some s

/-- Build the `MessageData` the route hands to `sendMessage`. -/
def toMessageData (v : ValidatedSendRequest) : MessageData :=
  { recipient := v.recipient, message := v.message,
    messageType := v.messageType,
    imageUrl := jsOrUndefined v.imageUrl,
    fileName := jsOrUndefined v.fileName }

/-! ### Session initialization under concurrency
(`kakaotalk.service.ts`, lines 96–164)

`initBrowser` is `async`; on Node's single-threaded event loop another caller
can only interleave at an `await`.  Its control flow, with the suspension
points that matter for duplicate logins:

```
if (!this.browser) {                      -- synchronous null check
  this.browser = await chromium.launch()  -- suspends; assignment on resume
  await this.initializeMainPage()         -- performs the login submission
}
```

A caller is reduced to a program counter; `browser` and the count of login submissions
(`initializeMainPage` → `loginToKakaoTalk` runs, lines 128–154) are the shared
state.  A schedule is the list of caller indices given the event loop's turns. -/

/-- Where a caller of `initBrowser` currently is. -/
inductive InitPc where
  /-- About to evaluate `if (!this.browser)`. -/
  | start
  /-- Passed the null check; suspended in `await chromium.launch(...)`
  (`this.browser` not yet assigned). -/
  | launching
  /-- Resumed: assigned `this.browser`, now inside
  `await this.initializeMainPage()`, about to submit the login. -/
  | initing
  /-- State `initBrowser` returned. -/
  | done
deriving DecidableEq, Repr

/-- Shared service state plus the program counter of each concurrent caller. -/
structure InitState where
  /-- Whether `this.browser` is non-null. -/
  browser : Bool
  /-- Number of login submissions performed so far. -/
  logins : Nat
  /-- Program counter of each caller. -/
  pcs : List InitPc
deriving DecidableEq, Repr

/-- Run caller `i` for one step (up to its next suspension point). -/
def stepInit (s : InitState) (i : Nat) : InitState :=
  match s.pcs.get? i with
  | none => s
  | some pc =>
    match pc with
    | InitPc.start =>
      if s.browser then { s with pcs := s.pcs.set i InitPc.done }
      else { s with pcs := s.pcs.set i InitPc.launching }
    | InitPc.launching =>
      { s with browser := true, pcs := s.pcs.set i InitPc.initing }
    | InitPc.initing =>
      { s with logins := s.logins + 1, pcs := s.pcs.set i InitPc.done }
    | InitPc.done => s

/-- Run a whole schedule of caller turns. -/
def runSched (s : InitState) : List Nat → InitState
  | [] => s
  | i :: rest => runSched (stepInit s i) rest

/-- The uninitialized service with `n` concurrent `initBrowser` callers:
`this.browser === null`, no login performed, every caller at the null check. -/
def initialInitState (n : Nat) : InitState :=
  { browser := false, logins := 0, pcs := List.replicate n InitPc.start }

/-! ### `fetchAndSaveChatList` (`kakaotalk.service.ts`, lines 604–654)

`fetchAndSaveChatList` calls `this.fetchChatList()` and, on success,
`this.saveChatList(...)`.  `fetchChatList` (lines 430–485) issues one `fetch`
of the chat-search endpoint with a fully hardcoded header set (including the
cookie literal of lines 451–452); it reads none of `this.browser`,
`this.mainPage` or `this.isLoggedIn`, and neither method calls `initBrowser`.
We record the service-level actions as a trace to state ordering claims. -/

/-- Service-level actions of the fetch-and-save path. -/
inductive SvcEv where
  /-- A call of `initBrowser` (the ensure-ready / login entry point). -/
  | initBrowserCall
  /-- The raw `fetch` of the chat-search endpoint in `fetchChatList`. -/
  | rawFetch
  /-- The `chatListStorage.push` of `saveChatList`. -/
  | storeSave
deriving DecidableEq, Repr

/-- Embeds `fetchChatList` (lines 430–485): one raw `fetch` with hardcoded headers;
`fetchOk` is whether the HTTP call succeeds with an ok status, `resp` the
parsed body.  On failure the `catch` yields `{success: false, error}`. -/
def fetchChatList (fetchOk : Bool) (resp : ChatListResponse) :
    SvcResult ChatListResponse × List SvcEv :=
  if fetchOk then
    (⟨true, some resp, none⟩, [SvcEv.rawFetch])
  else
    (⟨false, none, some ("Unknown error")⟩, [SvcEv.rawFetch])

/-- The result shape of `fetchAndSaveChatList`:
`{ success: boolean; id?: string; data?: ChatListResponse; error?: string }`. -/
structure FetchSaveResult where
  success : Bool
  id : Option String
  data : Option ChatListResponse
  error : Option String
deriving DecidableEq, Repr

/-- Embeds `fetchAndSaveChatList` (lines 608–654): fetch, and on
`fetchResult.success && fetchResult.data` save `fetchResult.data.items`;
returns early with the fetch error otherwise.  The returned trace is the
ordered list of service-level actions performed. -/
def fetchAndSaveChatList (fetchOk : Bool) (resp : ChatListResponse) (now : Nat)
    (store : List ChatListStorage) :
    FetchSaveResult × List ChatListStorage × List SvcEv :=
  let fetchResult := fetchChatList fetchOk resp
  match fetchResult.1.data, fetchResult.1.success with
  | some data, true =>
    let saveResult := saveChatList data.items now store
    match saveResult.1.success, saveResult.1.id with
    | true, id =>
      (⟨true, id, some data, none⟩, saveResult.2,
        fetchResult.2 ++ [SvcEv.storeSave])
    | false, _ =>
      (⟨false, none, none, saveResult.1.error⟩, saveResult.2,
        fetchResult.2 ++ [SvcEv.storeSave])
  | _, _ =>
    let error := match fetchResult.1.error with
      | some e => some e
      | none => some ("채팅 목록을 가져오는데 실패했습니다.")
    (⟨false, none, none, error⟩, store, fetchResult.2)

/-! ### Helper lemmas -/

/-- Decimal value of a digit string, most significant digit first. -/
def decodeDigits (l : List Char) : Nat :=
  l.foldl (fun acc c => acc * 10 + (c.toNat - 48)) 0

theorem decodeDigits_append_singleton (xs : List Char) (c : Char) :
    decodeDigits (xs ++ [c]) = decodeDigits xs * 10 + (c.toNat - 48) := by
  simp [decodeDigits, List.foldl_append]

theorem digitChar_decode (m : Nat) (h : m < 10) : (Nat.digitChar m).toNat - 48 = m := by
  revert m; decide

/-- Lemma: `Nat.toDigitsCore` only ever prepends to its accumulator. -/
theorem toDigitsCore_accumulator (b : Nat) :
    ∀ (fuel n : Nat) (ds : List Char),
      Nat.toDigitsCore b fuel n ds = Nat.toDigitsCore b fuel n [] ++ ds := by
  intro fuel
  induction fuel with
  | zero => intro n ds; simp [Nat.toDigitsCore]
  | succ fuel ih =>
    intro n ds
    simp only [Nat.toDigitsCore]
    by_cases hz : n / b = 0
    · simp [hz]
    · simp only [hz, if_false]
      rw [ih (n / b) [Nat.digitChar (n % b)],
        ih (n / b) (Nat.digitChar (n % b) :: ds), List.append_assoc]
      rfl

/-- With enough fuel, decoding the digits of `n` recovers `n`. -/
theorem decodeDigits_toDigitsCore :
    ∀ (fuel n : Nat), n < 10 ^ fuel →
      decodeDigits (Nat.toDigitsCore 10 fuel n []) = n := by
  intro fuel
  induction fuel with
  | zero =>
    intro n hn
    interval_cases n
    simp [Nat.toDigitsCore, decodeDigits]
  | succ fuel ih =>
    intro n hn
    simp only [Nat.toDigitsCore]
    by_cases hz : n / 10 = 0
    · have hlt : n < 10 := by omega
      simp only [hz, if_true]
      have : decodeDigits [Nat.digitChar (n % 10)] = (Nat.digitChar (n % 10)).toNat - 48 := by
        simp [decodeDigits]
      rw [this, digitChar_decode (n % 10) (Nat.mod_lt n (by norm_num)), Nat.mod_eq_of_lt hlt]
    · simp only [hz, if_false]
      rw [toDigitsCore_accumulator, decodeDigits_append_singleton,
        ih (n / 10) (by
          have h10 : (10 : Nat) ^ (fuel + 1) = 10 * 10 ^ fuel := by ring
          omega),
        digitChar_decode (n % 10) (Nat.mod_lt n (by omega))]
      omega

theorem decodeDigits_toDigits (n : Nat) :
    decodeDigits (Nat.toDigits 10 n) = n := by
  have hlt : n < 10 ^ (n + 1) :=
    lt_of_lt_of_le (Nat.lt_pow_self (by norm_num) n)
      (Nat.pow_le_pow_right (by norm_num) (Nat.le_succ n))
  exact decodeDigits_toDigitsCore (n + 1) n hlt

theorem Nat_repr_injective {m n : Nat} (h : Nat.repr m = Nat.repr n) : m = n := by
  have hdata : (Nat.toDigits 10 m) = (Nat.toDigits 10 n) := by
    have := congrArg String.data h
    simpa [Nat.repr, List.asString] using this
  calc m = decodeDigits (Nat.toDigits 10 m) := (decodeDigits_toDigits m).symm
    _ = decodeDigits (Nat.toDigits 10 n) := by rw [hdata]
    _ = n := decodeDigits_toDigits n

theorem string_append_left_cancel {p s₁ s₂ : String}
    (h : p ++ s₁ = p ++ s₂) : s₁ = s₂ := by
  apply String.ext
  have := congrArg String.data h
  rw [String.data_append, String.data_append] at this
  exact List.append_cancel_left this

/-- The `reduce` comparator of `getLatestChatList`. -/
def laterEntry (latest current : ChatListStorage) : ChatListStorage :=
  if latest.saved_at < current.saved_at then current else latest

theorem foldl_laterEntry_mem (t : List ChatListStorage) :
    ∀ h : ChatListStorage, t.foldl laterEntry h ∈ h :: t := by
  induction t with
  | nil => intro h; simp
  | cons c t ih =>
    intro h
    rw [List.foldl_cons]
    rcases List.mem_cons.mp (ih (laterEntry h c)) with heq | hmem
    · rw [heq]
      by_cases hc : h.saved_at < c.saved_at <;> simp [laterEntry, hc]
    · exact List.mem_cons_of_mem _ (List.mem_cons_of_mem _ hmem)

theorem foldl_laterEntry_ge (t : List ChatListStorage) :
    ∀ (h : ChatListStorage) (x : ChatListStorage), x ∈ h :: t →
      x.saved_at ≤ (t.foldl laterEntry h).saved_at := by
  induction t with
  | nil => intro h x hx; simp at hx; subst hx; simp
  | cons c t ih =>
    intro h x hx
    rw [List.foldl_cons]
    have hhc : h.saved_at ≤ (laterEntry h c).saved_at := by
      unfold laterEntry
      by_cases hlt : h.saved_at < c.saved_at
      · rw [if_pos hlt]; omega
      · rw [if_neg hlt]
    have hcc : c.saved_at ≤ (laterEntry h c).saved_at := by
      unfold laterEntry
      by_cases hlt : h.saved_at < c.saved_at
      · rw [if_pos hlt]
      · rw [if_neg hlt]; omega
    have hbase : (laterEntry h c).saved_at ≤ (t.foldl laterEntry (laterEntry h c)).saved_at :=
      ih (laterEntry h c) (laterEntry h c) (List.mem_cons_self _ _)
    rcases List.mem_cons.mp hx with rfl | hx'
    · omega
    · rcases List.mem_cons.mp hx' with rfl | hx''
      · omega
      · exact ih (laterEntry h c) x (List.mem_cons_of_mem _ hx'')

/-- A failing step in the attempted list makes the whole run fail. -/
theorem runSteps_fail_of_mem (ok : Ev → Bool) :
    ∀ l : List Ev, (∃ e ∈ l, ok e = false) → (runSteps ok l).1 = false := by
  intro l
  induction l with
  | nil => rintro ⟨e, he, _⟩; simp at he
  | cons a t ih =>
    rintro ⟨e, he, hfail⟩
    by_cases ha : ok a
    · have het : e ∈ t := by
        rcases List.mem_cons.mp he with rfl | het
        · rw [ha] at hfail; cases hfail
        · exact het
      simp [runSteps, ha]
      exact ih ⟨e, het, hfail⟩
    · simp [runSteps, ha]

/-- If some step of the prefix `l₁` fails, the run never reaches `l₂`:
every attempted step lies in `l₁`. -/
theorem runSteps_trace_subset_of_fail (ok : Ev → Bool) :
    ∀ (l₁ l₂ : List Ev), (∃ e ∈ l₁, ok e = false) →
      ∀ x ∈ (runSteps ok (l₁ ++ l₂)).2, x ∈ l₁ := by
  intro l₁
  induction l₁ with
  | nil => rintro l₂ ⟨e, he, _⟩; simp at he
  | cons a t ih =>
    rintro l₂ ⟨e, he, hfail⟩ x hx
    by_cases ha : ok a
    · have het : e ∈ t := by
        rcases List.mem_cons.mp he with rfl | het
        · rw [ha] at hfail; cases hfail
        · exact het
      simp only [List.cons_append, runSteps, ha, if_true] at hx
      rcases List.mem_cons.mp hx with rfl | hx'
      · exact List.mem_cons_self _ _
      · exact List.mem_cons_of_mem _ (ih l₂ ⟨e, het, hfail⟩ x hx')
    · simp only [List.cons_append, runSteps, ha, if_false] at hx
      rcases List.mem_cons.mp hx with rfl | hx'
      · exact List.mem_cons_self _ _
      · simp at hx'

/-- Invariant of the initialization model once the first login completed:
the browser is set and every caller is either before its null check or done. -/
def InitSettled (s : InitState) : Prop :=
  s.browser = true ∧ ∀ pc ∈ s.pcs, pc = InitPc.start ∨ pc = InitPc.done

theorem stepInit_settled {s : InitState} (i : Nat) (h : InitSettled s) :
    InitSettled (stepInit s i) ∧ (stepInit s i).logins = s.logins := by
  obtain ⟨hb, hpcs⟩ := h
  unfold stepInit
  cases hg : s.pcs.get? i with
  | none => exact ⟨⟨hb, hpcs⟩, rfl⟩
  | some pc =>
    have hmem : pc ∈ s.pcs := List.get?_mem hg
    rcases hpcs pc hmem with rfl | rfl
    · rw [if_pos hb]
      refine ⟨⟨hb, ?_⟩, rfl⟩
      intro pc' hpc'
      rcases List.mem_or_eq_of_mem_set hpc' with h' | rfl
      · exact hpcs pc' h'
      · exact Or.inr rfl
    · exact ⟨⟨hb, hpcs⟩, rfl⟩

theorem runSched_settled_logins {s : InitState} (sched : List Nat)
    (h : InitSettled s) : (runSched s sched).logins = s.logins := by
  induction sched generalizing s with
  | nil => rfl
  | cons i rest ih =>
    obtain ⟨hinv, hlog⟩ := stepInit_settled i h
    rw [runSched, ih hinv, hlog]

/-- A sequence of `saveChatList` calls, each with its chat list and its
`Date.now()` value, applied to the store in order. -/
def runSaves (saves : List (List ChatItem × Nat))
    (store : List ChatListStorage) : List ChatListStorage :=
  saves.foldl (fun st s => (saveChatList s.1 s.2 st).2) store

theorem runSaves_length (saves : List (List ChatItem × Nat)) :
    ∀ store : List ChatListStorage,
      (runSaves saves store).length = store.length + saves.length := by
  induction saves with
  | nil => intro store; simp [runSaves]
  | cons s rest ih =>
    intro store
    have := ih ((saveChatList s.1 s.2 store).2)
    simp only [runSaves, List.foldl_cons] at this ⊢
    rw [this]
    simp [saveChatList]
    omega

/-! ### Claim theorems -/

/-- C5 (counterexample): `getChatList` with an id that is the id of no stored
snapshot returns `success: true` with an empty list — it succeeds, contradicting
the claim that a lookup of an absent id yields a NotFound failure. -/
theorem getChatList_absent_succeeds_counterexample :
    ("chatlist_7" ∉
      ([⟨"chatlist_5", [], 5, 0⟩] : List ChatListStorage).map ChatListStorage.id)
    ∧ (getChatList (some ("chatlist_7")) [⟨"chatlist_5", [], 5, 0⟩]).success = true
    ∧ getChatList (some ("chatlist_7")) [⟨"chatlist_5", [], 5, 0⟩]
        = ⟨true, some [], none⟩ := by
  decide

/-- C5 (amended): for an id absent from the store, `getChatList` returns the
success outcome carrying an empty list and no error — absence is observable
only as emptiness of the returned list, never as a failure outcome. -/
theorem getChatList_absent_returns_empty (id : String)
    (store : List ChatListStorage) (h : id ∉ store.map ChatListStorage.id) :
    getChatList (some id) store = ⟨true, some [], none⟩ := by
  have hnil : store.filter (fun storage => storage.id = id) = [] := by
    rw [List.filter_eq_nil_iff]
    intro s hs
    simp only [decide_eq_true_eq]
    intro heq
    exact h (heq ▸ List.mem_map_of_mem ChatListStorage.id hs)
  simp [getChatList, hnil]

/-- C5 (witness): the amended theorem evaluated at a concrete store. -/
theorem getChatList_absent_returns_empty_witness :
    getChatList (some ("chatlist_7")) [(⟨"chatlist_5", [], 5, 0⟩ : ChatListStorage)]
      = ⟨true, some [], none⟩ :=
  getChatList_absent_returns_empty ("chatlist_7") _ (by decide)

/-- C6 (counterexample): two consecutive `saveChatList` calls whose `Date.now()`
values fall in the same millisecond both return the id `"chatlist_5"` — the
generated ids are not unique, contradicting the claim. -/
theorem saveChatList_same_millisecond_counterexample :
    (saveChatList [] 5 []).1.id = some ("chatlist_5")
    ∧ (saveChatList [] 5 (saveChatList [] 5 []).2).1.id = some ("chatlist_5")
    ∧ ((saveChatList [] 5 (saveChatList [] 5 []).2).2.map ChatListStorage.id
        = ["chatlist_5", "chatlist_5"]) := by
  decide

/-- C6 (amended): ids returned by two `saveChatList` calls are distinct
whenever the calls observe distinct `Date.now()` values; saves within the same
millisecond collide (see the counterexample). -/
theorem saveChatList_distinct_times_distinct_ids
    (l₁ l₂ : List ChatItem) (t₁ t₂ : Nat) (st₁ st₂ : List ChatListStorage)
    (h : t₁ ≠ t₂) :
    (saveChatList l₁ t₁ st₁).1.id ≠ (saveChatList l₂ t₂ st₂).1.id := by
  simp only [saveChatList]
  intro hc
  have hs : ("chatlist_" ++ Nat.repr t₁ : String) = "chatlist_" ++ Nat.repr t₂ :=
    Option.some.inj hc
  exact h (Nat_repr_injective (string_append_left_cancel hs))

/-- C6 (witness): saves one millisecond apart get distinct ids. -/
theorem saveChatList_distinct_times_distinct_ids_witness :
    (saveChatList [] 5 []).1.id ≠ (saveChatList [] 6 []).1.id :=
  saveChatList_distinct_times_distinct_ids [] [] 5 6 [] [] (by decide)

/-- C7: `getLatestChatList` on the empty store returns the distinguished
empty-store outcome (whose error string differs from the delete path's
not-found string) — the function is total, so no crash is possible — and on a
non-empty store returns a stored entry that is maximal by `saved_at`. -/
theorem getLatestChatList_empty_and_max (store : List ChatListStorage) :
    getLatestChatList [] = ⟨false, none, some emptyStoreError⟩
    ∧ emptyStoreError ≠ notFoundError
    ∧ (store ≠ [] →
        ∃ m, getLatestChatList store = ⟨true, some m, none⟩
          ∧ m ∈ store ∧ ∀ x ∈ store, x.saved_at ≤ m.saved_at) := by
  refine ⟨rfl, by decide, ?_⟩
  intro hne
  match store with
  | [] => exact absurd rfl hne
  | h :: t =>
    exact ⟨t.foldl laterEntry h, rfl, foldl_laterEntry_mem t h,
      fun x hx => foldl_laterEntry_ge t h x hx⟩

/-- C7 (witness): the non-empty branch evaluated at a concrete store. -/
theorem getLatestChatList_empty_and_max_witness :
    ∃ m, getLatestChatList [⟨"a", [], 3, 0⟩, ⟨"b", [], 9, 0⟩] = ⟨true, some m, none⟩
      ∧ m ∈ [(⟨"a", [], 3, 0⟩ : ChatListStorage), ⟨"b", [], 9, 0⟩]
      ∧ ∀ x ∈ [(⟨"a", [], 3, 0⟩ : ChatListStorage), ⟨"b", [], 9, 0⟩],
          x.saved_at ≤ m.saved_at :=
  (getLatestChatList_empty_and_max [⟨"a", [], 3, 0⟩, ⟨"b", [], 9, 0⟩]).2.2
    (by decide)

/-- C8: after any sequence of `saveChatList` calls on an initially empty store
(arbitrary chat lists and arbitrary `Date.now()` values, in any interleaving),
`getChatList` with no id succeeds and returns exactly as many entries as there
were saves, ordered by `saved_at` descending. -/
theorem getChatList_all_after_saves (saves : List (List ChatItem × Nat)) :
    (getChatList none (runSaves saves [])).success = true
    ∧ ∃ l, (getChatList none (runSaves saves [])).data = some l
        ∧ l.length = saves.length
        ∧ l.Pairwise (fun a b => b.saved_at ≤ a.saved_at) := by
  refine ⟨rfl, (runSaves saves []).mergeSort bySavedAtDesc, rfl, ?_, ?_⟩
  · rw [List.length_mergeSort, runSaves_length]
    simp
  · have htrans : ∀ a b c : ChatListStorage,
        bySavedAtDesc a b = true → bySavedAtDesc b c = true →
        bySavedAtDesc a c = true := by
      intro a b c hab hbc
      simp only [bySavedAtDesc, decide_eq_true_eq] at *
      omega
    have htotal : ∀ a b : ChatListStorage,
        (bySavedAtDesc a b || bySavedAtDesc b a) = true := by
      intro a b
      simp only [bySavedAtDesc, Bool.or_eq_true, decide_eq_true_eq]
      omega
    exact (List.sorted_mergeSort htrans htotal (runSaves saves [])).imp
      (fun hab => of_decide_eq_true hab)

/-- C9: deleting an id that is in no stored snapshot returns the not-found
failure and leaves the store unchanged (same entries, same size). -/
theorem deleteChatList_absent_not_found (id : String)
    (store : List ChatListStorage) (h : id ∉ store.map ChatListStorage.id) :
    deleteChatList id store = (⟨false, some notFoundError⟩, store) := by
  have hself : store.filter (fun storage => storage.id ≠ id) = store := by
    rw [List.filter_eq_self]
    intro s hs
    simp only [decide_eq_true_eq]
    intro heq
    exact h (heq ▸ List.mem_map_of_mem ChatListStorage.id hs)
  unfold deleteChatList
  rw [hself]
  simp

/-- C9 (witness): deleting a nonexistent id from a concrete store. -/
theorem deleteChatList_absent_not_found_witness :
    deleteChatList ("nonexistent") [(⟨"chatlist_3", [], 3, 0⟩ : ChatListStorage)]
      = (⟨false, some notFoundError⟩, [⟨"chatlist_3", [], 3, 0⟩]) :=
  deleteChatList_absent_not_found ("nonexistent") _ (by decide)

/-- C10: deleting an id that is present succeeds and removes, in one call,
every stored snapshot bearing that id — afterwards no entry has the id — while
every entry with a different id survives unchanged (the result is exactly the
filtered store). -/
theorem deleteChatList_present_removes_all (id : String)
    (store : List ChatListStorage) (h : id ∈ store.map ChatListStorage.id) :
    (deleteChatList id store).1 = ⟨true, none⟩
    ∧ (deleteChatList id store).2 = store.filter (fun s => s.id ≠ id)
    ∧ (∀ s ∈ (deleteChatList id store).2, s.id ≠ id)
    ∧ (∀ s, s ∈ (deleteChatList id store).2 ↔ s ∈ store ∧ s.id ≠ id) := by
  obtain ⟨s₀, hs₀, hid⟩ := List.mem_map.mp h
  have hlt : (store.filter (fun s => s.id ≠ id)).length < store.length :=
    List.length_filter_lt_length_iff_exists.mpr ⟨s₀, hs₀, by simp [hid]⟩
  have hcond : ¬((store.filter (fun s => s.id ≠ id)).length = store.length) :=
    Nat.ne_of_lt hlt
  have hres : deleteChatList id store
      = (⟨true, none⟩, store.filter (fun s => s.id ≠ id)) := by
    unfold deleteChatList
    rw [if_neg hcond]
  refine ⟨by rw [hres], by rw [hres], ?_, ?_⟩
  · intro s hs
    rw [hres] at hs
    exact of_decide_eq_true (List.mem_filter.mp hs).2
  · intro s
    rw [hres, List.mem_filter]
    simp

/-- C10 (witness): a concrete store with a duplicated id, fully purged. -/
theorem deleteChatList_present_removes_all_witness :
    (deleteChatList ("a") [⟨"a", [], 3, 0⟩, ⟨"b", [], 4, 0⟩, ⟨"a", [], 5, 0⟩]).1
        = ⟨true, none⟩
    ∧ (deleteChatList ("a") [⟨"a", [], 3, 0⟩, ⟨"b", [], 4, 0⟩, ⟨"a", [], 5, 0⟩]).2
        = [⟨"a", [], 3, 0⟩, ⟨"b", [], 4, 0⟩,
            (⟨"a", [], 5, 0⟩ : ChatListStorage)].filter (fun s => s.id ≠ "a")
    ∧ (∀ s ∈ (deleteChatList ("a")
          [⟨"a", [], 3, 0⟩, ⟨"b", [], 4, 0⟩, ⟨"a", [], 5, 0⟩]).2, s.id ≠ "a")
    ∧ (∀ s, s ∈ (deleteChatList ("a")
          [⟨"a", [], 3, 0⟩, ⟨"b", [], 4, 0⟩, ⟨"a", [], 5, 0⟩]).2
        ↔ s ∈ [(⟨"a", [], 3, 0⟩ : ChatListStorage), ⟨"b", [], 4, 0⟩,
            ⟨"a", [], 5, 0⟩] ∧ s.id ≠ "a") :=
  deleteChatList_present_removes_all ("a") _ (by decide)

/-- C1 (counterexample): two concurrent `initBrowser` callers that interleave
at the `await chromium.launch(...)` suspension both observe
`this.browser === null` and both go on to perform a login — two authentication
attempts for one Uninitialized session, contradicting the claim that
authentication is internally serialized.  The schedule alternates the two
callers through their three steps. -/
theorem initBrowser_duplicate_login_counterexample :
    (runSched (initialInitState 2) [0, 1, 0, 1, 0, 1]).logins = 2 := by decide

/-- C1 (amended): `initBrowser` deduplicates logins only through the
`if (!this.browser)` check, which serializes nothing: exactly one
authentication runs only when the first call completes before any other
caller passes the null check.  Formally: from `n + 1` pending callers, after
the first caller runs to completion (`[0, 0, 0]`), exactly one login has run,
and no continuation schedule of the remaining callers ever adds another. -/
theorem initBrowser_single_auth_when_first_call_completes
    (n : Nat) (rest : List Nat) :
    (runSched (initialInitState (n + 1)) ([0, 0, 0] ++ rest)).logins = 1 := by
  have hstep : runSched (initialInitState (n + 1)) ([0, 0, 0] ++ rest)
      = runSched ⟨true, 1, InitPc.done :: List.replicate n InitPc.start⟩ rest := rfl
  rw [hstep]
  have hinv : InitSettled ⟨true, 1, InitPc.done :: List.replicate n InitPc.start⟩ := by
    refine ⟨rfl, ?_⟩
    intro pc hpc
    rcases List.mem_cons.mp hpc with rfl | hmem
    · exact Or.inr rfl
    · exact Or.inl (List.eq_of_mem_replicate hmem)
  exact runSched_settled_logins rest hinv

/-- C2: a dispatch whose attachment step fails — for an image payload with a
reference, either attach-menu click or image-option click fails; for a file
payload with a reference, either attach-menu click or file-option click
fails — aborts the whole `inputAndSendMessage` run before the send-button
click: the run fails and `clickSend` is never attempted. -/
theorem attach_failure_aborts_before_send (ok : Ev → Bool) (m : MessageData)
    (h : (m.messageType = MessageType.image ∧ truthy m.imageUrl = true
            ∧ (ok Ev.attachMenuClick = false ∨ ok Ev.attachImageOption = false))
        ∨ (m.messageType = MessageType.file ∧ truthy m.fileName = true
            ∧ (ok Ev.attachMenuClick = false ∨ ok Ev.attachFileOption = false))) :
    (inputAndSendMessage ok m).1 = false
    ∧ Ev.clickSend ∉ (inputAndSendMessage ok m).2 := by
  rcases h with ⟨hty, href, hfail⟩ | ⟨hty, href, hfail⟩
  · have hplan : dispatchPlan m
        = [Ev.waitInput, Ev.fillMessage, Ev.attachMenuClick, Ev.attachImageOption]
            ++ [Ev.readSendButtonText, Ev.clickSend, Ev.settle] := by
      simp [dispatchPlan, hty, href]
    have hex : ∃ e ∈ [Ev.waitInput, Ev.fillMessage, Ev.attachMenuClick,
        Ev.attachImageOption], ok e = false := by
      rcases hfail with hf | hf
      · exact ⟨Ev.attachMenuClick, by simp, hf⟩
      · exact ⟨Ev.attachImageOption, by simp, hf⟩
    constructor
    · apply runSteps_fail_of_mem ok (dispatchPlan m)
      obtain ⟨e, he, hf⟩ := hex
      exact ⟨e, hplan ▸ List.mem_append_left _ he, hf⟩
    · intro hmem
      rw [inputAndSendMessage, hplan] at hmem
      have := runSteps_trace_subset_of_fail ok _ _ hex Ev.clickSend hmem
      simp at this
  · have hplan : dispatchPlan m
        = [Ev.waitInput, Ev.fillMessage, Ev.attachMenuClick, Ev.attachFileOption]
            ++ [Ev.readSendButtonText, Ev.clickSend, Ev.settle] := by
      simp [dispatchPlan, hty, href]
    have hex : ∃ e ∈ [Ev.waitInput, Ev.fillMessage, Ev.attachMenuClick,
        Ev.attachFileOption], ok e = false := by
      rcases hfail with hf | hf
      · exact ⟨Ev.attachMenuClick, by simp, hf⟩
      · exact ⟨Ev.attachFileOption, by simp, hf⟩
    constructor
    · apply runSteps_fail_of_mem ok (dispatchPlan m)
      obtain ⟨e, he, hf⟩ := hex
      exact ⟨e, hplan ▸ List.mem_append_left _ he, hf⟩
    · intro hmem
      rw [inputAndSendMessage, hplan] at hmem
      have := runSteps_trace_subset_of_fail ok _ _ hex Ev.clickSend hmem
      simp at this

/-- C2 (witness): an image dispatch whose attach-menu click fails stops
before the send click. -/
theorem attach_failure_aborts_before_send_witness :
    (inputAndSendMessage (fun e => e ≠ Ev.attachMenuClick)
        ⟨"r", "hi", MessageType.image, some ("http://img"), none⟩).1 = false
    ∧ Ev.clickSend ∉ (inputAndSendMessage (fun e => e ≠ Ev.attachMenuClick)
        ⟨"r", "hi", MessageType.image, some ("http://img"), none⟩).2 :=
  attach_failure_aborts_before_send _ _
    (Or.inl ⟨rfl, by decide, Or.inl (by decide)⟩)

/-- C3 (counterexample): the request `{recipient: "a", message: "hi",
messageType: "image", chatId: "1"}` with no `imageUrl` passes `messageSchema`
validation — regardless of the URL validator — and is then processed: the run
fills the text, skips the attachment step entirely and clicks send. -/
theorem image_without_reference_accepted_counterexample :
    messageSchemaParse (fun _ => false)
        ⟨some ("a"), some ("hi"), some ("image"), none, none, some ("1")⟩
      = some ⟨"a", "hi", MessageType.image, none, none, "1"⟩
    ∧ (inputAndSendMessage (fun _ => true)
        (toMessageData ⟨"a", "hi", MessageType.image, none, none, "1"⟩)).1 = true
    ∧ (inputAndSendMessage (fun _ => true)
        (toMessageData ⟨"a", "hi", MessageType.image, none, none, "1"⟩)).2
      = [Ev.waitInput, Ev.fillMessage, Ev.readSendButtonText, Ev.clickSend,
          Ev.settle] := by
  decide

/-- C3 (amended): `messageSchema` checks each field's shape in isolation and
never ties the references to `payload.kind`: a request of kind image or file
with both references absent is accepted whenever the required string fields
are non-empty, and the service then processes it with the attachment step
skipped — its step plan is exactly the plain-text plan. -/
theorem messageSchema_accepts_missing_reference
    (isUrl : String → Bool) (r msg c mts : String) (mt : MessageType)
    (hr : 1 ≤ r.length) (hm : 1 ≤ msg.length) (hc : 1 ≤ c.length)
    (hmt : (mts = "image" ∧ mt = MessageType.image)
         ∨ (mts = "file" ∧ mt = MessageType.file)) :
    messageSchemaParse isUrl ⟨some r, some msg, some mts, none, none, some c⟩
      = some ⟨r, msg, mt, none, none, c⟩
    ∧ dispatchPlan (toMessageData ⟨r, msg, mt, none, none, c⟩)
      = [Ev.waitInput, Ev.fillMessage, Ev.readSendButtonText, Ev.clickSend,
          Ev.settle] := by
  rcases hmt with ⟨rfl, rfl⟩ | ⟨rfl, rfl⟩ <;>
    exact ⟨by simp [messageSchemaParse, parseMessageType, hr, hm, hc],
      by simp [dispatchPlan, toMessageData, truthy, jsOrUndefined]⟩

/-- C3 (witness): the amended theorem at the counterexample's request. -/
theorem messageSchema_accepts_missing_reference_witness :
    messageSchemaParse (fun _ => true)
        ⟨some ("a"), some ("hi"), some ("file"), none, none, some ("1")⟩
      = some ⟨"a", "hi", MessageType.file, none, none, "1"⟩
    ∧ dispatchPlan (toMessageData ⟨"a", "hi", MessageType.file, none, none, "1"⟩)
      = [Ev.waitInput, Ev.fillMessage, Ev.readSendButtonText, Ev.clickSend,
          Ev.settle] :=
  messageSchema_accepts_missing_reference (fun _ => true) ("a") ("hi") ("1") ("file")
    MessageType.file (by decide) (by decide) (by decide) (Or.inr ⟨rfl, rfl⟩)

/-- C4 (counterexample): at a concrete invocation, the action trace of
`fetchAndSaveChatList` begins with the raw fetch and contains no
`initBrowser` (ensure-ready) call at all — contradicting the claimed
"first ensure the session is Ready, then fetch" order; the fetch itself is a
direct HTTP call with hardcoded headers, made outside the browser session
(`fetchChatList` reads no session state — see its definition). -/
theorem fetchAndSave_no_ensure_ready_counterexample :
    (fetchAndSaveChatList true ⟨[], false⟩ 7 []).2.2
        = [SvcEv.rawFetch, SvcEv.storeSave]
    ∧ SvcEv.initBrowserCall ∉ (fetchAndSaveChatList true ⟨[], false⟩ 7 []).2.2 := by
  decide

/-- C4 (amended): on every invocation `fetchAndSaveChatList` performs the raw
fetch as its first and only session-facing action — no ensure-ready step ever
runs — followed by exactly one store save when and only when the fetch
succeeded. -/
theorem fetchAndSave_trace (fetchOk : Bool) (resp : ChatListResponse)
    (now : Nat) (store : List ChatListStorage) :
    (fetchAndSaveChatList fetchOk resp now store).2.2
      = SvcEv.rawFetch :: (if fetchOk then [SvcEv.storeSave] else [])
    ∧ SvcEv.initBrowserCall ∉ (fetchAndSaveChatList fetchOk resp now store).2.2 := by
  cases fetchOk <;> simp [fetchAndSaveChatList, fetchChatList, saveChatList]

end KakaoTalk
